import Mathlib

/-!
# Verification of the Aether gateway against its specification

Shallow embedding of the parts of the Aether proxy/gateway that the
checked claims are about: the `family:kind` endpoint-signature utilities,
billing token normalization, format-compatibility checking, the streaming
context and prefetch error screening, the billing service with its decimal
quantization, shadow billing, and the video-task poller.

Conventions:
- Python `str` operations are modelled as structural recursions over
  `List Char` so concrete instances reduce by `decide` / `rfl`.
- Python `Decimal` values are modelled as exact rationals (`ℚ`); the
  28-significant-digit context of `src/services/billing/precision.py` is
  not modelled (it only affects magnitudes ≥ 10^20, far outside billing
  ranges).
- Python functions that raise are modelled with `Except` / `Option`.
-/

namespace Aether

/-! ## Python string primitives -/

/-- The characters stripped by Python `str.strip()` (ASCII fragment). -/
def isPyWhitespace (c : Char) : Bool :=
  c = ' ' || c = '\t' || c = '\n' || c = '\r' || c = '\x0b' || c = '\x0c'

/-- Model of Python `str.strip()` on a character list. -/
def stripChars (cs : List Char) : List Char :=
  ((cs.dropWhile isPyWhitespace).reverse.dropWhile isPyWhitespace).reverse

/-- Model of Python `str.strip()`. -/
def pyStrip (s : String) : String :=
  ⟨stripChars s.data⟩

/-- Model of Python `str.lower()` (ASCII range, which is all the source uses). -/
def pyLower (s : String) : String :=
  ⟨s.data.map Char.toLower⟩

/-- Model of Python `str.upper()` (ASCII range, which is all the source uses). -/
def pyUpper (s : String) : String :=
  ⟨s.data.map Char.toUpper⟩

/-- Model of Python `s.split(":", 1)`: split at the first colon.
Returns `none` when the string has no colon (Python keeps it whole;
the one caller treats that case as invalid first). -/
def splitFirstColon : List Char → Option (List Char × List Char)
  | [] => none
  | c :: rest =>
    if c = ':' then some ([], rest)
    else (splitFirstColon rest).map (fun p => (c :: p.1, p.2))

/-- Model of `containsSub hay needle`: model of Python `needle in hay` for strings. -/
def containsSub (hay needle : List Char) : Bool :=
  match hay with
  | [] => needle.isEmpty
  | _ :: t => needle.isPrefixOf hay || containsSub t needle

/-- Python `needle in hay` on `String`. -/
def pyInStr (needle hay : String) : Bool :=
  containsSub hay.data needle.data

/-! ## `src/core/api_format/enums.py` -/

/-- Model of `ApiFamily` enum. -/
inductive ApiFamily where
  | openai
  | claude
  | gemini
deriving DecidableEq, Repr, BEq

/-- The `.value` of each `ApiFamily` member. -/
def ApiFamily.value : ApiFamily → String
  | .openai => "openai"
  | .claude => "claude"
  | .gemini => "gemini"

/-- Model of `ApiFamily(s)` enum lookup by value; `none` models the raised `ValueError`. -/
def ApiFamily.ofString? (s : String) : Option ApiFamily :=
  if s = "openai" then some .openai
  else if s = "claude" then some .claude
  else if s = "gemini" then some .gemini
  else none

/-- Model of `EndpointKind` enum. -/
inductive EndpointKind where
  | chat
  | cli
  | video
  | image
deriving DecidableEq, Repr, BEq

/-- The `.value` of each `EndpointKind` member. -/
def EndpointKind.value : EndpointKind → String
  | .chat => "chat"
  | .cli => "cli"
  | .video => "video"
  | .image => "image"

/-- Model of `EndpointKind(s)` enum lookup by value; `none` models the raised `ValueError`. -/
def EndpointKind.ofString? (s : String) : Option EndpointKind :=
  if s = "chat" then some .chat
  else if s = "cli" then some .cli
  else if s = "video" then some .video
  else if s = "image" then some .image
  else none

/-! ## `src/core/api_format/signature.py` -/

/-- Model of `EndpointSignature` dataclass. -/
structure EndpointSignature where
  api_family : ApiFamily
  endpoint_kind : EndpointKind
deriving DecidableEq, Repr, BEq

/-- Model of `make_signature_key` on enum members: returns `f"{fam}:{kind}"` from the
enum values (the string overload lowers/strips first; the claims use the
enum path). -/
def make_signature_key (api_family : ApiFamily) (endpoint_kind : EndpointKind) : String :=
  api_family.value ++ ":" ++ endpoint_kind.value

/-- The `key` property of `EndpointSignature`. -/
def EndpointSignature.key (s : EndpointSignature) : String :=
  make_signature_key s.api_family s.endpoint_kind

/-- Model of `parse_signature_key`: strip, require a colon, split once, parse both
halves as enums after strip+lower. `none` models the raised `ValueError`. -/
def parse_signature_key (value : String) : Option EndpointSignature :=
  let raw := pyStrip value
  match splitFirstColon raw.data with
  | none => none
  | some (famRaw, kindRaw) =>
    match ApiFamily.ofString? (pyLower (pyStrip ⟨famRaw⟩)),
          EndpointKind.ofString? (pyLower (pyStrip ⟨kindRaw⟩)) with
    | some fam, some kind => some ⟨fam, kind⟩
    | _, _ => none

/-- Model of `normalize_signature_key`: parse, then emit the canonical key. -/
def normalize_signature_key (value : String) : Option String :=
  (parse_signature_key value).map EndpointSignature.key

/-! ## `src/services/billing/token_normalization.py` -/

/-- Model of `_is_claude_family`: `none`/blank → `False`; otherwise parse the
signature (propagating the parse error) and compare the family. -/
def _is_claude_family (api_format : Option String) : Except String Bool :=
  match api_format with
  | none => .ok false
  | some s =>
    let text := pyStrip s
    if text = "" then .ok false
    else
      match parse_signature_key text with
      | some sig => .ok (sig.api_family == ApiFamily.claude)
      | none => .error "invalid_signature"

/-- Model of `_is_openai_family`: same shape as `_is_claude_family`. -/
def _is_openai_family (api_format : Option String) : Except String Bool :=
  match api_format with
  | none => .ok false
  | some s =>
    let text := pyStrip s
    if text = "" then .ok false
    else
      match parse_signature_key text with
      | some sig => .ok (sig.api_family == ApiFamily.openai)
      | none => .error "invalid_signature"

/-- Model of `normalize_input_tokens_for_billing`: claude keeps the upstream count,
openai subtracts cache hits (clamped at 0), everything else falls through
unchanged; parse errors propagate. -/
def normalize_input_tokens_for_billing (api_format : Option String)
    (input_tokens cache_read_tokens : ℤ) : Except String ℤ :=
  if input_tokens ≤ 0 then .ok (if input_tokens = 0 then 0 else input_tokens)
  else if cache_read_tokens ≤ 0 then .ok input_tokens
  else
    match _is_claude_family api_format with
    | .error e => .error e
    | .ok true => .ok input_tokens
    | .ok false =>
      match _is_openai_family api_format with
      | .error e => .error e
      | .ok true => .ok (max (input_tokens - cache_read_tokens) 0)
      | .ok false => .ok input_tokens

/-! ## `src/core/api_format/conversion/compatibility.py` -/

/-- The endpoint's `format_acceptance_config` argument: Python `dict | None`.
`dictConfig` carries the values read with `.get` and their defaults
(`enabled` defaults to `False`, the format lists to `[]`,
`stream_conversion` to `True`); `notDict` is a present but non-dict value. -/
inductive AcceptanceConfig where
  | null
  | notDict
  | dictConfig (enabled : Bool) (reject_formats accept_formats : List String)
      (stream_conversion : Bool)
deriving DecidableEq, Repr

/-- The endpoint-configuration tier of `is_format_compatible` (step 3 of the
body): `some r` is an early return rejecting the candidate, `none` means the
check passes and the flow continues.  The Chinese reason strings of the
source are carried as short English tags; no claim inspects their text. -/
def endpoint_config_check (client_key : String) (cfg : AcceptanceConfig)
    (is_stream : Bool) : Option (Bool × Bool × Option String) :=
  match cfg with
  | .null => some (false, false, some "no acceptance policy configured")
  | .notDict => some (false, false, some "invalid acceptance config")
  | .dictConfig enabled reject_formats accept_formats stream_conversion =>
    if !enabled then some (false, false, some "acceptance not enabled")
    else if (reject_formats.map pyUpper).contains client_key then
      some (false, false, some "format rejected")
    else if accept_formats ≠ [] && !((accept_formats.map pyUpper).contains client_key) then
      some (false, false, some "format not accepted")
    else if is_stream && !stream_conversion then
      some (false, false, some "stream conversion not supported")
    else none

/-- Model of `is_format_compatible`.  The two collaborators that live outside this
file are passed as functions: `can_passthrough` is
`can_passthrough_endpoint` (src/core/api_format/metadata.py) and
`can_convert_full` is `registry.can_convert_full` (conversion registry).
Returns `(is_compatible, needs_conversion, skip_reason)`. -/
def is_format_compatible (client_format endpoint_api_format : String)
    (endpoint_format_acceptance_config : AcceptanceConfig)
    (is_stream : Bool) (effective_conversion_enabled : Bool)
    (can_passthrough : String → String → Bool)
    (can_convert_full : String → String → Bool → Bool)
    (skip_endpoint_check : Bool) : Bool × Bool × Option String :=
  let client_key := pyUpper client_format
  let provider_key := pyUpper endpoint_api_format
  if provider_key = client_key then (true, false, none)
  else if !effective_conversion_enabled then
    (false, false, some "conversion disabled")
  else
    let early :=
      if skip_endpoint_check then none
      else endpoint_config_check client_key endpoint_format_acceptance_config is_stream
    match early with
    | some r => r
    | none =>
      if can_passthrough client_key provider_key then (true, false, none)
      else if !can_convert_full client_key provider_key is_stream then
        (false, false, some "no full converter")
      else (true, true, none)

/-! ## JSON values and Python dicts -/

/-- A JSON value, as produced by `json.loads`. -/
inductive Json where
  | null
  | bool (b : Bool)
  | num (q : ℚ)
  | str (s : String)
  | arr (xs : List Json)
  | obj (fields : List (String × Json))

/-- A Python value as stored in the loosely-typed dicts the billing code
passes around (`dict[str, Any]`).  `vRat` stands for Python floats (exact
rationals; binary float rounding is not exercised by the claims). -/
inductive Value where
  | vInt (n : ℤ)
  | vRat (q : ℚ)
  | vStr (s : String)
  | vBool (b : Bool)
  | vNone
deriving DecidableEq, Repr

/-- Insertion-ordered string-keyed dict. -/
abbrev Dict := List (String × Value)

/-- Model of `k in d`. -/
def Dict.containsKey (d : Dict) (k : String) : Bool :=
  d.any (fun p => p.1 == k)

/-- Model of `d.get(k)` (`None` when the key is absent). -/
def Dict.get? (d : Dict) (k : String) : Option Value :=
  (d.find? (fun p => p.1 == k)).map (fun p => p.2)

/-- Model of `d[k] = v`: overwrite in place, else append (Python dicts keep
insertion order). -/
def Dict.set (d : Dict) (k : String) (v : Value) : Dict :=
  if d.containsKey k then d.map (fun p => if p.1 == k then (k, v) else p)
  else d ++ [(k, v)]

/-! ## `src/api/handlers/base/stream_context.py` -/

/-- Model of `StreamContext` dataclass with its field defaults. -/
structure StreamContext where
  model : String
  api_format : String
  provider_name : Option String := none
  provider_id : Option String := none
  endpoint_id : Option String := none
  key_id : Option String := none
  attempt_id : Option String := none
  provider_api_format : Option String := none
  mapped_model : Option String := none
  input_tokens : ℤ := 0
  output_tokens : ℤ := 0
  cached_tokens : ℤ := 0
  cache_creation_tokens : ℤ := 0
  collected_text : String := ""
  status_code : ℤ := 200
  error_message : Option String := none
  has_completion : Bool := false
  response_headers : List (String × String) := []
  provider_request_headers : List (String × String) := []
  provider_request_body : Option Dict := none
  data_count : ℤ := 0
  chunk_count : ℤ := 0
  parsed_chunks : List Dict := []
deriving DecidableEq, Repr

/-- Model of `StreamContext.reset_for_retry`: the exact field assignments of the
method body (lines 70–83 of the source), nothing more. -/
def StreamContext.reset_for_retry (c : StreamContext) : StreamContext :=
  { c with
    parsed_chunks := []
    chunk_count := 0
    data_count := 0
    has_completion := false
    collected_text := ""
    input_tokens := 0
    output_tokens := 0
    cached_tokens := 0
    cache_creation_tokens := 0
    error_message := none
    status_code := 200
    response_headers := []
    provider_request_headers := []
    provider_request_body := none }

/-! ## `src/services/billing/precision.py` -/

/-- Model of `ROUND_HALF_UP` of Python `decimal`: round to nearest, ties away from
zero. -/
def roundHalfUp (x : ℚ) : ℤ :=
  if 0 ≤ x then ⌊x + 1 / 2⌋ else -⌊-x + 1 / 2⌋

/-- Model of `BILLING_STORAGE_PRECISION`. -/
def BILLING_STORAGE_PRECISION : ℕ := 8

/-- Model of `quantize_decimal(value, precision)` (`Decimal` modelled as exact `ℚ`). -/
def quantize_decimal (value : ℚ) (precision : ℕ) : ℚ :=
  roundHalfUp (value * 10 ^ precision) / 10 ^ precision

/-- Model of `quantize_cost`: quantize to 8 decimal places. -/
def quantize_cost (value : ℚ) : ℚ :=
  quantize_decimal value BILLING_STORAGE_PRECISION

/-! ## `src/services/billing/schema.py` -/

/-- Model of `BillingSnapshot` (v2.0), restricted to the fields the claims touch;
`Decimal`/float amounts are exact rationals. -/
structure BillingSnapshot where
  schema_version : String := "2.0"
  rule_id : Option String := none
  rule_name : Option String := none
  scope : Option String := none
  expression : Option String := none
  resolved_dimensions : Dict := []
  cost_breakdown : List (String × ℚ) := []
  total_cost : ℚ := 0
  missing_required : List String := []
  status : String := "no_rule"
deriving DecidableEq, Repr

/-- Model of `CostResult`. -/
structure CostResult where
  cost : ℚ
  status : String
  snapshot : BillingSnapshot
deriving DecidableEq, Repr

/-! ## Formula engine (modelled from the spec) -/

/-- Result shape of `FormulaEngine.evaluate`. -/
structure EvalResult where
  status : String
  cost : ℚ
  cost_breakdown : List (String × ℚ)
  missing_required : List String
deriving DecidableEq, Repr

/-- Modelled from the spec: `FormulaEngine.evaluate`
(src/services/billing/formula_engine.py is not in the tree; only its
callers are).  §4.10: the rule expression is a sum of component terms;
each term resolves to a component cost (the valuation `env` stands for the
resolution of variables, dimensions and mappings), the breakdown has one
entry per term, and the cost is their sum.  When required dimensions are
missing the status is `incomplete` and the cost is 0. -/
def FormulaEngine.evaluate (terms : List String) (env : String → ℚ)
    (missing_required : List String) : EvalResult :=
  if missing_required ≠ [] then
    { status := "incomplete", cost := 0, cost_breakdown := [],
      missing_required := missing_required }
  else
    { status := "complete", cost := (terms.map env).sum,
      cost_breakdown := terms.map (fun t => (t, env t)), missing_required := [] }

/-! ## `src/services/billing/service.py` -/

/-- Model of `int(float(dims.get(k) or 0))` with the `except` fallback to 0.
Numeric strings are outside the modelled value space (`float(s)` parsing
belongs to the Python runtime); non-numeric strings hit the `except`
branch, which also yields 0. -/
def toIntLenient : Option Value → ℤ
  | none => 0
  | some .vNone => 0
  | some (.vInt n) => n
  | some (.vRat q) => if 0 ≤ q then ⌊q⌋ else ⌈q⌉
  | some (.vStr _) => 0
  | some (.vBool b) => if b then 1 else 0

/-- Lines 88–121 of `BillingService.calculate`: normalize and enrich the
(copied) dimensions dict — compatibility aliases, `request_count` default,
derived `total_input_context`. -/
def calculate_enrich_dims (dimensions : Dict) : Dict :=
  let dims := dimensions
  let dims :=
    if !dims.containsKey "cache_creation_tokens" &&
        dims.containsKey "cache_creation_input_tokens" then
      dims.set "cache_creation_tokens" ((dims.get? "cache_creation_input_tokens").getD .vNone)
    else dims
  let dims :=
    if !dims.containsKey "cache_read_tokens" &&
        dims.containsKey "cache_read_input_tokens" then
      dims.set "cache_read_tokens" ((dims.get? "cache_read_input_tokens").getD .vNone)
    else dims
  let dims :=
    if !dims.containsKey "request_count" then dims.set "request_count" (.vInt 1) else dims
  if !dims.containsKey "total_input_context" then
    dims.set "total_input_context"
      (.vInt (toIntLenient (dims.get? "input_tokens") +
        toIntLenient (dims.get? "cache_creation_tokens") +
        toIntLenient (dims.get? "cache_read_tokens")))
  else dims

/-- Model of `VirtualBillingRule` as far as `calculate` consumes it: identity,
expression text, and the expression's component terms (handed to the
modelled formula engine). -/
structure VirtualBillingRule where
  id : String
  name : String
  expression : String
  terms : List String

/-- The `no_rule` tail of `BillingService.calculate` (lines 190–210). -/
def calculate_no_rule_result (dims : Dict) : CostResult :=
  { cost := 0, status := "no_rule",
    snapshot := { resolved_dimensions := dims, status := "no_rule", total_cost := 0 } }

/-- Lines 139–188 of `BillingService.calculate`: quantize the component
costs, total them (`total = Σ quantized components` when a breakdown is
present, quantized engine cost otherwise, and 0 unless the status is
`complete`), and build the snapshot. -/
def calculate_build_result (rule : VirtualBillingRule) (dims : Dict)
    (result : EvalResult) : CostResult :=
  let breakdown_quantized := result.cost_breakdown.map (fun p => (p.1, quantize_cost p.2))
  let total_dec :=
    if !breakdown_quantized.isEmpty then
      quantize_cost ((breakdown_quantized.map (fun p => p.2)).sum)
    else quantize_cost result.cost
  let total_cost := if result.status = "complete" then total_dec else 0
  { cost := total_cost, status := result.status,
    snapshot :=
      { rule_id := some rule.id, rule_name := some rule.name,
        expression := some rule.expression, resolved_dimensions := dims,
        cost_breakdown := breakdown_quantized, total_cost := total_cost,
        missing_required := result.missing_required, status := result.status } }

/-- Model of `BillingService.calculate`.  The rule lookup (`BillingRuleService.find_rule`,
a DB read) is passed in as `lookup`; the formula-engine resolution inputs are
`env`/`engine_missing` (see `FormulaEngine.evaluate`).  A `.error` models the
`BillingIncompleteError` raised under strict mode. -/
def BillingService.calculate (lookup : Option VirtualBillingRule)
    (env : String → ℚ) (engine_missing : List String)
    (dimensions : Option Dict) (strict : Bool) : Except String CostResult :=
  let dims := calculate_enrich_dims (dimensions.getD [])
  match lookup with
  | some rule =>
    if rule.expression ≠ "" then
      let result := FormulaEngine.evaluate rule.terms env engine_missing
      if strict && result.status == "incomplete" then .error "BillingIncompleteError"
      else .ok (calculate_build_result rule dims result)
    else .ok (calculate_no_rule_result dims)
  | none => .ok (calculate_no_rule_result dims)

/-! ### Heap-level view of the dimensions handling (frame effect)

`BillingService.calculate` receives `dimensions` by reference.  To state
that the caller's dict is never mutated we model the Python object heap: a
list of dict cells addressed by index.  `dict(dimensions or {})` allocates
a fresh cell holding a copy; every subsequent `dims[...] = ...` of lines
91–121 writes to that fresh cell only. -/

/-- Read a heap cell. -/
def heapRead (h : List Dict) (r : ℕ) : Dict := h.getD r []

/-- Write a heap cell in place. -/
def heapWrite (h : List Dict) (r : ℕ) (d : Dict) : List Dict := h.set r d

/-- Lines 85–121 of `BillingService.calculate` on the object heap:
allocate the copy, then apply the two compatibility aliases, the
`request_count` default and the derived `total_input_context` by in-place
writes to the fresh cell.  Returns the final heap and the reference held
by the local `dims`. -/
def calculate_dims_phase (h : List Dict) (dimensions : Option ℕ) : List Dict × ℕ :=
  let initial : Dict :=
    match dimensions with
    | none => []
    | some r => heapRead h r
  let h1 := h ++ [initial]
  let dimsRef := h.length
  let d1 := heapRead h1 dimsRef
  let h2 :=
    if !d1.containsKey "cache_creation_tokens" &&
        d1.containsKey "cache_creation_input_tokens" then
      heapWrite h1 dimsRef
        (d1.set "cache_creation_tokens" ((d1.get? "cache_creation_input_tokens").getD .vNone))
    else h1
  let d2 := heapRead h2 dimsRef
  let h3 :=
    if !d2.containsKey "cache_read_tokens" &&
        d2.containsKey "cache_read_input_tokens" then
      heapWrite h2 dimsRef
        (d2.set "cache_read_tokens" ((d2.get? "cache_read_input_tokens").getD .vNone))
    else h2
  let d3 := heapRead h3 dimsRef
  let h4 :=
    if !d3.containsKey "request_count" then
      heapWrite h3 dimsRef (d3.set "request_count" (.vInt 1))
    else h3
  let d4 := heapRead h4 dimsRef
  let h5 :=
    if !d4.containsKey "total_input_context" then
      heapWrite h4 dimsRef
        (d4.set "total_input_context"
          (.vInt (toIntLenient (d4.get? "input_tokens") +
            toIntLenient (d4.get? "cache_creation_tokens") +
            toIntLenient (d4.get? "cache_read_tokens"))))
    else h4
  (h5, dimsRef)

/-! ## `src/services/billing/shadow.py` -/

/-- Model of `CostBreakdown` (Usage-row truth values). -/
structure CostBreakdown where
  input_cost : ℚ
  output_cost : ℚ
  cache_creation_cost : ℚ
  cache_read_cost : ℚ
  request_cost : ℚ
  total_cost : ℚ
deriving DecidableEq, Repr

/-- Model of `CostBreakdown.validate`: the total matches the component sum within
`1e-8`. -/
def CostBreakdown.validate (b : CostBreakdown) : Bool :=
  decide (|b.input_cost + b.output_cost + b.cache_creation_cost + b.cache_read_cost +
    b.request_cost - b.total_cost| < 1 / 100000000)

/-- Model of `ShadowBillingResult` (the `comparison` log dict is not modelled). -/
structure ShadowBillingResult where
  truth_breakdown : CostBreakdown
  shadow_snapshot : Option BillingSnapshot
  engine_mode : String
  truth_engine : String
  was_fallback : Bool
deriving DecidableEq, Repr

/-- Model of `.get(k, 0.0)` on the snapshot's cost-breakdown dict. -/
def breakdown_get (l : List (String × ℚ)) (k : String) : ℚ :=
  (((l.find? (fun p => p.1 == k)).map (fun p => p.2)).getD 0)

/-- Lines 222–231 of `calculate_with_shadow`: rebuild a `CostBreakdown`
from the new engine's snapshot. -/
def new_breakdown_of_snapshot (s : BillingSnapshot) : CostBreakdown :=
  { input_cost := breakdown_get s.cost_breakdown "input_cost"
    output_cost := breakdown_get s.cost_breakdown "output_cost"
    cache_creation_cost := breakdown_get s.cost_breakdown "cache_creation_cost"
    cache_read_cost := breakdown_get s.cost_breakdown "cache_read_cost"
    request_cost := breakdown_get s.cost_breakdown "request_cost"
    total_cost := s.total_cost }

/-- Model of `ShadowBillingService.calculate_with_shadow`, from the resolved engine
mode on.  The new-engine run (`BillingService.calculate` over the built
dimensions) is abstracted as the snapshot it produced; metrics and logging
are effect-free observers and are not modelled.  `engine_mode` is a string
because overrides may carry arbitrary values (the final `else` treats
unknown modes as legacy). -/
def calculate_with_shadow (engine_mode : String) (legacy_truth : CostBreakdown)
    (new_snapshot : BillingSnapshot) (diff_threshold : ℚ) : ShadowBillingResult :=
  if engine_mode = "legacy" then
    { truth_breakdown := legacy_truth, shadow_snapshot := none,
      engine_mode := engine_mode, truth_engine := "legacy", was_fallback := false }
  else
    let new_breakdown := new_breakdown_of_snapshot new_snapshot
    let diff := |new_breakdown.total_cost - legacy_truth.total_cost|
    let sel : String × CostBreakdown × Bool :=
      if engine_mode = "shadow" then ("legacy", legacy_truth, false)
      else if engine_mode = "new" then ("new", new_breakdown, false)
      else if engine_mode = "new_with_fallback" then
        if diff > diff_threshold * 10 then ("legacy", legacy_truth, true)
        else ("new", new_breakdown, false)
      else ("legacy", legacy_truth, false)
    { truth_breakdown := sel.2.1
      shadow_snapshot :=
        if engine_mode = "shadow" ∨ engine_mode = "new_with_fallback" ∨ engine_mode = "new"
        then some new_snapshot else none
      engine_mode := engine_mode
      truth_engine := sel.1
      was_fallback := sel.2.2 }

/-! ## `src/services/task/impl/video_poller.py` -/

/-- Model of `VideoStatus` (src/core/api_format/conversion/internal_video.py; only
the member set and string values are needed here). -/
inductive VideoStatus where
  | pending
  | submitted
  | queued
  | processing
  | completed
  | failed
  | cancelled
deriving DecidableEq, Repr

/-- The `.value` strings of `VideoStatus`. -/
def VideoStatus.value : VideoStatus → String
  | .pending => "pending"
  | .submitted => "submitted"
  | .queued => "queued"
  | .processing => "processing"
  | .completed => "completed"
  | .failed => "failed"
  | .cancelled => "cancelled"

/-- The `VideoTask` row, restricted to the fields the poller updates.
Timestamps are epoch seconds. -/
structure VideoTask where
  status : String
  poll_count : ℕ
  max_poll_count : ℕ
  retry_count : ℕ
  poll_interval_seconds : ℕ
  next_poll_at : ℕ
  completed_at : Option ℕ := none
  updated_at : ℕ := 0
  progress_percent : ℤ := 0
  progress_message : Option String := none
  error_code : Option String := none
  error_message : Option String := none
  video_url : Option String := none
  video_expires_at : Option ℕ := none
  video_urls : Option (List String) := none
  video_duration_seconds : Option ℚ := none
deriving DecidableEq, Repr

/-- Model of `InternalVideoPollResult`. -/
structure InternalVideoPollResult where
  status : VideoStatus
  error_code : Option String := none
  error_message : Option String := none
  video_url : Option String := none
  video_urls : Option (List String) := none
  expires_at : Option ℕ := none
  video_duration_seconds : Option ℚ := none
  progress_percent : ℤ := 0
deriving DecidableEq, Repr

/-- Model of `VideoPollContext`, restricted to the fields `_handle_poll_error`
reads. -/
structure VideoPollContext where
  poll_count : ℕ
  retry_count : ℕ
  poll_interval_seconds : ℕ
  max_poll_count : ℕ
  current_status : String
deriving DecidableEq, Repr

/-- The exception reaching `update_task_after_poll`: a `PollHTTPError`
(carrying its status code) or any other exception. -/
inductive PollExc where
  | http (status_code : ℤ) (message : String)
  | other (message : String)
deriving DecidableEq, Repr

/-- Model of `str(exc)`: `PollHTTPError.__init__` builds `"HTTP {code}: {message}"`
(or just `"HTTP {code}"` when the message is empty). -/
def PollExc.pyStr : PollExc → String
  | .http c m => if m ≠ "" then "HTTP " ++ toString c ++ ": " ++ m else "HTTP " ++ toString c
  | .other m => m

/-- Model of `exc.status_code if isinstance(exc, PollHTTPError) else None`. -/
def PollExc.status_code : PollExc → Option ℤ
  | .http c _ => some c
  | .other _ => none

/-- Model of `_PERMANENT_ERROR_INDICATORS`. -/
def _PERMANENT_ERROR_INDICATORS : List String :=
  ["not found", "404", "unauthorized", "401", "forbidden", "403",
   "invalid request", "invalid api key", "does not exist"]

/-- Model of `VideoTaskPollerAdapter._is_permanent_error`: with a status code,
decide purely on `400 ≤ s < 500 ∧ s ≠ 429`; without one, look for a
permanent-error keyword in the lowercased exception text. -/
def _is_permanent_error (exc : PollExc) (status_code : Option ℤ) : Bool :=
  match status_code with
  | some c => decide (400 ≤ c ∧ c < 500 ∧ c ≠ 429)
  | none => _PERMANENT_ERROR_INDICATORS.any (fun ind => pyInStr ind (pyLower exc.pyStr))

/-- Model of `max_backoff_seconds`. -/
def max_backoff_seconds : ℕ := 300

/-- Model of `VideoTaskPollerAdapter._handle_poll_error`.  `sanitize` is
`sanitize_error_message` (src/api/handlers/base/video_handler_base.py, not
in the tree), passed as a function; `now` is the sampled wall clock. -/
def _handle_poll_error (task : VideoTask) (exc : PollExc) (ctx : VideoPollContext)
    (sanitize : String → String) (now : ℕ) : VideoTask :=
  let task :=
    { task with
      poll_count := task.poll_count + 1
      progress_message := some ("Poll error: " ++ sanitize exc.pyStr) }
  let status_code := exc.status_code
  if _is_permanent_error exc status_code then
    { task with
      status := "failed"
      error_code := some "poll_permanent_error"
      error_message := some (sanitize exc.pyStr)
      completed_at := some now }
  else
    let backoff := min (ctx.poll_interval_seconds * 2 ^ (min ctx.retry_count 5)) max_backoff_seconds
    { task with retry_count := task.retry_count + 1, next_poll_at := now + backoff }

/-- Python truthiness of `result.video_urls` (`None` and `[]` are falsy). -/
def truthyStrList : Option (List String) → Bool
  | some (_ :: _) => true
  | _ => false

/-- Lines 274–284 of `update_task_after_poll`: stamp `updated_at` and fail
the task with `poll_timeout` when the poll budget is exhausted and the
status is not terminal. -/
def apply_poll_timeout (t : VideoTask) (now : ℕ) : VideoTask :=
  let t := { t with updated_at := now }
  if t.max_poll_count ≤ t.poll_count ∧
      t.status ∉ (["completed", "failed", "cancelled"] : List String) then
    { t with
      status := "failed"
      error_code := some "poll_timeout"
      error_message := some ("Task timed out after " ++ toString t.poll_count ++ " polls")
      completed_at := some now }
  else t

/-- Model of `VideoTaskPollerAdapter.update_task_after_poll`, given the reloaded
task (the early return when the row disappeared is outside this model).
`_attach_poll_raw_response` only touches `request_metadata` and
`finalize_video_task` only writes Usage rows; neither changes the fields
modelled here.  All `datetime.now` samples in one call are the single
`now`. -/
def update_task_after_poll (task : VideoTask) (result : InternalVideoPollResult)
    (ctx : Option VideoPollContext) (error_exception : Option PollExc)
    (sanitize : String → String) (now : ℕ) : VideoTask :=
  let t :=
    match error_exception, ctx with
    | some exc, some c => _handle_poll_error task exc c sanitize now
    | _, _ =>
      if result.status = VideoStatus.completed then
        { task with
          status := "completed"
          video_url := result.video_url
          video_expires_at := result.expires_at
          completed_at := some now
          progress_percent := 100
          video_urls := if truthyStrList result.video_urls then result.video_urls else task.video_urls
          video_duration_seconds :=
            if result.video_duration_seconds.isSome then result.video_duration_seconds
            else task.video_duration_seconds }
      else if result.status = VideoStatus.failed then
        { task with
          status := "failed"
          error_code := result.error_code
          error_message := result.error_message
          completed_at := some now }
      else
        { task with
          poll_count := task.poll_count + 1
          progress_percent := result.progress_percent
          next_poll_at := now + task.poll_interval_seconds }
  apply_poll_timeout t now

/-! ## `src/api/handlers/base/utils.py` — prefetch error screening -/

/-- The bytes stripped by `bytes.lstrip()` (ASCII whitespace). -/
def isPyWsByte (b : ℕ) : Bool :=
  b = 0x20 || b = 0x09 || b = 0x0a || b = 0x0d || b = 0x0b || b = 0x0c

/-- Model of `bytes.lower()` on one byte. -/
def byteLower (b : ℕ) : ℕ :=
  if 0x41 ≤ b ∧ b ≤ 0x5a then b + 0x20 else b

/-- ASCII bytes of a literal. -/
def strBytes (s : String) : List ℕ :=
  s.data.map Char.toNat

/-- Lines 159–164 of `check_prefetched_response_error`: join the prefetched
chunks, strip leading whitespace, and drop a UTF-8 BOM. -/
def prefetch_stripped (prefetched_chunks : List (List ℕ)) : List ℕ :=
  let joined := prefetched_chunks.flatten
  let stripped := joined.dropWhile isPyWsByte
  if stripped.take 3 = [0xef, 0xbb, 0xbf] then stripped.drop 3 else stripped

/-- Model of `ParsedResponse`, restricted to the error fields used here. -/
structure ParsedResponse where
  error_type : Option String
  error_message : Option String

/-- A response parser as `check_prefetched_response_error` consumes it:
`is_error_response` and `parse_response` (the per-family normalizers live
in the conversion registry, outside this file). -/
structure ResponseParser where
  is_error_response : Json → Bool
  parse_response : Json → ℤ → ParsedResponse

/-- The exceptions `check_prefetched_response_error` can raise. -/
inductive StreamCheckError where
  | providerNotAvailable (message : String)
  | embeddedError (provider_name : String) (error_code : Option ℤ)
      (error_message : Option String) (error_status : Option String)

/-- Decimal digits of a numeral string. -/
def digitsToInt (cs : List Char) : ℤ :=
  cs.foldl (fun a c => a * 10 + ((c.toNat : ℤ) - ('0'.toNat : ℤ))) 0

/-- Model of `int(parsed.error_type) if parsed.error_type and parsed.error_type.isdigit()
else None`. -/
def error_code_of_type : Option String → Option ℤ
  | none => none
  | some s => if s ≠ "" && s.data.all Char.isDigit then some (digitsToInt s.data) else none

/-- Model of `check_prefetched_response_error`.  `jsonLoads` stands for
`stripped.decode("utf-8", errors="replace").strip()` followed by
`json.loads` (Python stdlib); `none` is a `JSONDecodeError`, which the
function swallows.  An `.error` models the raised exception. -/
def check_prefetched_response_error (prefetched_chunks : List (List ℕ))
    (parser : ResponseParser) (provider_name : String)
    (jsonLoads : List ℕ → Option Json) : Except StreamCheckError Unit :=
  if prefetched_chunks.isEmpty then .ok ()
  else
    let stripped := prefetch_stripped prefetched_chunks
    let loweredHead := (stripped.take 32).map byteLower
    if (strBytes "<!doctype").isPrefixOf loweredHead ||
        (strBytes "<html").isPrefixOf loweredHead then
      .error (.providerNotAvailable
        ("provider " ++ provider_name ++ " returned an HTML page instead of an API response"))
    else if stripped.head? = some 123 ∨ stripped.head? = some 91 then
      match jsonLoads stripped with
      | none => .ok ()
      | some (Json.obj fields) =>
        if parser.is_error_response (Json.obj fields) then
          let parsed := parser.parse_response (Json.obj fields) 200
          .error (.embeddedError provider_name (error_code_of_type parsed.error_type)
            parsed.error_message parsed.error_type)
        else .ok ()
      | some _ => .ok ()
    else .ok ()

/-- The prefetch phase as the streaming pipeline runs it: screen the
prefetched chunks first; only when the screen passes are they handed on to
be forwarded to the client (a raised error aborts the attempt with no
bytes sent). -/
def prefetch_phase (prefetched_chunks : List (List ℕ)) (parser : ResponseParser)
    (provider_name : String) (jsonLoads : List ℕ → Option Json) :
    Except StreamCheckError (List (List ℕ)) :=
  match check_prefetched_response_error prefetched_chunks parser provider_name jsonLoads with
  | .error e => .error e
  | .ok _ => .ok prefetched_chunks

/-! ## Concrete sample data used by the witnesses -/

/-- A fully populated context for exercising `reset_for_retry`. -/
def c3_ctx : StreamContext :=
  { model := "claude-3-haiku", api_format := "claude:chat",
    provider_name := some "acme", provider_id := some "prov-1", endpoint_id := some "ep-1",
    key_id := some "key-1", attempt_id := some "att-7", provider_api_format := some "openai:chat",
    mapped_model := some "gpt-4o", input_tokens := 11, output_tokens := 7, cached_tokens := 3,
    cache_creation_tokens := 2, collected_text := "hi", status_code := 502,
    error_message := some "boom", has_completion := true, response_headers := [("x-a", "1")],
    provider_request_headers := [("h", "v")], provider_request_body := some [("k", .vInt 1)],
    data_count := 4, chunk_count := 9, parsed_chunks := [[("t", .vInt 1)]] }

/-- Legacy truth sample for the C7 witness. -/
def c7_legacy : CostBreakdown :=
  { input_cost := 1 / 1000, output_cost := 3 / 1000, cache_creation_cost := 0,
    cache_read_cost := 0, request_cost := 0, total_cost := 4 / 1000 }

/-- New-engine snapshot sample for the C7 witness. -/
def c7_snap : BillingSnapshot :=
  { cost_breakdown := [("input_cost", 3 / 1000)], total_cost := 3 / 1000,
    status := "complete" }

/-- Task sample for the C5 witness. -/
def c5_task : VideoTask :=
  { status := "processing", poll_count := 2, max_poll_count := 120, retry_count := 0,
    poll_interval_seconds := 10, next_poll_at := 500 }

/-- Poll-context sample for the C5 witness. -/
def c5_ctx : VideoPollContext :=
  { poll_count := 2, retry_count := 0, poll_interval_seconds := 10, max_poll_count := 120,
    current_status := "processing" }

/-- Task sample for the C4 witness. -/
def c4_task : VideoTask :=
  { status := "processing", poll_count := 1, max_poll_count := 100, retry_count := 0,
    poll_interval_seconds := 10, next_poll_at := 900 }

/-- Poll-result sample for the C4 witness. -/
def c4_result : InternalVideoPollResult :=
  { status := .processing, progress_percent := 40 }

/-- Rule sample for the C1 witness. -/
def c1_rule : VirtualBillingRule :=
  { id := "rule-1", name := "universal", expression := "input_cost + output_cost",
    terms := ["input_cost", "output_cost"] }

/-- The billing result of the C1 witness run. -/
def c1_res : CostResult :=
  calculate_build_result c1_rule (calculate_enrich_dims [])
    (FormulaEngine.evaluate c1_rule.terms (fun _ => 3 / 1000) [])


/-! # Theorems -/

/-! ## C8 — signature round-trips -/

/-- C8: for every valid signature string `x`, `make_signature_key` applied to
the parsed family and kind of `x` equals `normalize_signature_key x`; and for
every signature `s`, parsing the normalization of `s.key` yields a signature
whose key is `s.key`. -/
theorem signature_key_roundtrip :
    (∀ (x : String) (sig : EndpointSignature), parse_signature_key x = some sig →
      normalize_signature_key x = some (make_signature_key sig.api_family sig.endpoint_kind)) ∧
    (∀ s : EndpointSignature,
      ((normalize_signature_key s.key).bind parse_signature_key).map EndpointSignature.key =
        some s.key) := by
  constructor
  · intro x sig h
    simp [normalize_signature_key, h, EndpointSignature.key]
  · intro s
    obtain ⟨f, k⟩ := s
    cases f <;> cases k <;> decide

/-- C8 witness: the round-trips at concrete inputs. -/
theorem signature_key_roundtrip_witness :
    normalize_signature_key " OpenAI : Chat " = some "openai:chat" ∧
    ((normalize_signature_key (EndpointSignature.mk .gemini .video).key).bind
        parse_signature_key).map EndpointSignature.key = some "gemini:video" := by
  constructor
  · have h := signature_key_roundtrip.1 " OpenAI : Chat " ⟨.openai, .chat⟩ (by decide)
    exact h
  · exact signature_key_roundtrip.2 ⟨.gemini, .video⟩

/-! ## C9 — case-insensitive exact-format passthrough -/

/-- C9: client and endpoint formats that are equal after ASCII upcasing take
the exact-match branch of `is_format_compatible`: the result is
`(true, false, none)` whatever the acceptance config, stream flag, global
conversion switch, collaborator functions and skip flag are. -/
theorem format_compatible_case_insensitive_passthrough :
    ∀ (client endpoint : String) (cfg : AcceptanceConfig) (is_stream conv skip : Bool)
      (can_pass : String → String → Bool) (can_conv : String → String → Bool → Bool),
      pyUpper client = pyUpper endpoint →
      is_format_compatible client endpoint cfg is_stream conv can_pass can_conv skip =
        (true, false, none) := by
  intro client endpoint cfg is_stream conv skip can_pass can_conv h
  unfold is_format_compatible
  simp [h]

/-- C9 witness: `"OpenAI:chat"` against `"openai:chat"` with a null config,
streaming on, the global conversion switch off and collaborators that refuse
everything. -/
theorem format_compatible_case_insensitive_passthrough_witness :
    is_format_compatible "OpenAI:chat" "openai:chat" .null true false
      (fun _ _ => false) (fun _ _ _ => false) false = (true, false, none) :=
  format_compatible_case_insensitive_passthrough "OpenAI:chat" "openai:chat" .null true false
    false (fun _ _ => false) (fun _ _ _ => false) (by decide)

/-! ## C3 — `reset_for_retry` frame -/

/-- C3: `reset_for_retry` does reset the counters and buffers, but it leaves
the provider-resolution fields (`provider_name`, `provider_id`,
`endpoint_id`, `key_id`, `attempt_id`, `provider_api_format`,
`mapped_model`) untouched — they keep their pre-retry values instead of
returning to their `none` defaults, contrary to the method's documented
contract that only `model` and `api_format` survive. -/
theorem reset_for_retry_preserves_provider_fields :
    (c3_ctx.reset_for_retry).provider_name = some "acme" ∧
    (c3_ctx.reset_for_retry).provider_id = some "prov-1" ∧
    (c3_ctx.reset_for_retry).endpoint_id = some "ep-1" ∧
    (c3_ctx.reset_for_retry).key_id = some "key-1" ∧
    (c3_ctx.reset_for_retry).attempt_id = some "att-7" ∧
    (c3_ctx.reset_for_retry).provider_api_format = some "openai:chat" ∧
    (c3_ctx.reset_for_retry).mapped_model = some "gpt-4o" ∧
    (c3_ctx.reset_for_retry).input_tokens = 0 ∧
    (c3_ctx.reset_for_retry).status_code = 200 ∧
    (c3_ctx.reset_for_retry).collected_text = "" ∧
    (c3_ctx.reset_for_retry).parsed_chunks = [] ∧
    ({ model := "claude-3-haiku", api_format := "claude:chat" } : StreamContext).provider_name =
      none := by
  decide

/-! ## C2 — input-token normalization families -/

/-- The parse performed inside `_is_claude_family` / `_is_openai_family`
succeeds on the stripped format text. -/
theorem family_check_of_parse (s : String) (sig : EndpointSignature)
    (h : parse_signature_key (pyStrip s) = some sig) :
    _is_claude_family (some s) = .ok (sig.api_family == ApiFamily.claude) ∧
    _is_openai_family (some s) = .ok (sig.api_family == ApiFamily.openai) := by
  have hne : pyStrip s ≠ "" := by
    intro he
    rw [he] at h
    exact Option.noConfusion ((by decide : parse_signature_key "" = none) ▸ h)
  constructor
  · unfold _is_claude_family
    simp only [if_neg hne, h]
  · unfold _is_openai_family
    simp only [if_neg hne, h]

/-- C2 counterexample: for a gemini-family format with positive tokens the
function returns `input_tokens` (100) unchanged, not the claimed
`max(input_tokens − cache_read_tokens, 0)` = 80. -/
theorem normalize_input_tokens_gemini_counterexample :
    normalize_input_tokens_for_billing (some "gemini:chat") 100 20 = .ok 100 ∧
    max (100 - 20 : ℤ) 0 = 80 ∧ (100 : ℤ) ≠ 80 := by
  refine ⟨rfl, by decide, by decide⟩

/-- C2 (amended): for positive `input_tokens` and `cache_read_tokens`, the
claude family keeps `input_tokens`, the openai family subtracts the cache
hits (clamped at 0), the gemini family keeps `input_tokens` (it has no
special case), and a missing format keeps `input_tokens`.  (A non-empty
format string that does not parse raises `ValueError` instead of returning.) -/
theorem normalize_input_tokens_amended :
    ∀ (inp cached : ℤ), 0 < inp → 0 < cached →
      normalize_input_tokens_for_billing none inp cached = .ok inp ∧
      ∀ (s : String) (sig : EndpointSignature), parse_signature_key (pyStrip s) = some sig →
        normalize_input_tokens_for_billing (some s) inp cached =
          .ok (match sig.api_family with
            | .claude => inp
            | .openai => max (inp - cached) 0
            | .gemini => inp) := by
  intro inp cached hi hc
  have hni : ¬ inp ≤ 0 := by omega
  have hnc : ¬ cached ≤ 0 := by omega
  constructor
  · unfold normalize_input_tokens_for_billing
    simp only [if_neg hni, if_neg hnc]
    rfl
  · intro s sig h
    obtain ⟨hcl, hop⟩ := family_check_of_parse s sig h
    unfold normalize_input_tokens_for_billing
    simp only [if_neg hni, if_neg hnc, hcl, hop]
    cases sig.api_family <;> rfl

/-- C2 witness: the amended statement at concrete inputs for all four
shapes. -/
theorem normalize_input_tokens_amended_witness :
    normalize_input_tokens_for_billing (some "openai:cli") 100 20 = .ok 80 ∧
    normalize_input_tokens_for_billing (some "claude:cli") 100 20 = .ok 100 ∧
    normalize_input_tokens_for_billing (some "gemini:video") 100 20 = .ok 100 ∧
    normalize_input_tokens_for_billing none 100 20 = .ok 100 := by
  have h1 := (normalize_input_tokens_amended 100 20 (by decide) (by decide)).2
    "openai:cli" ⟨.openai, .cli⟩ (by decide)
  have h2 := (normalize_input_tokens_amended 100 20 (by decide) (by decide)).2
    "claude:cli" ⟨.claude, .cli⟩ (by decide)
  have h3 := (normalize_input_tokens_amended 100 20 (by decide) (by decide)).2
    "gemini:video" ⟨.gemini, .video⟩ (by decide)
  have h4 := (normalize_input_tokens_amended 100 20 (by decide) (by decide)).1
  exact ⟨by simpa using h1, by simpa using h2, by simpa using h3, h4⟩

/-! ## C7 — `new_with_fallback` truth selection -/

/-- C7: in `new_with_fallback` mode the truth breakdown is the new engine's
breakdown, unless the absolute difference of the totals exceeds ten times
the diff threshold, in which case truth falls back to the legacy breakdown
with `truth_engine = "legacy"` and `was_fallback = true`. -/
theorem shadow_new_with_fallback :
    ∀ (legacy : CostBreakdown) (snap : BillingSnapshot) (threshold : ℚ),
      (|(new_breakdown_of_snapshot snap).total_cost - legacy.total_cost| ≤ threshold * 10 →
        (calculate_with_shadow "new_with_fallback" legacy snap threshold).truth_breakdown =
            new_breakdown_of_snapshot snap ∧
          (calculate_with_shadow "new_with_fallback" legacy snap threshold).truth_engine = "new" ∧
          (calculate_with_shadow "new_with_fallback" legacy snap threshold).was_fallback =
            false) ∧
      (threshold * 10 < |(new_breakdown_of_snapshot snap).total_cost - legacy.total_cost| →
        (calculate_with_shadow "new_with_fallback" legacy snap threshold).truth_breakdown =
            legacy ∧
          (calculate_with_shadow "new_with_fallback" legacy snap threshold).truth_engine =
            "legacy" ∧
          (calculate_with_shadow "new_with_fallback" legacy snap threshold).was_fallback =
            true) := by
  intro legacy snap threshold
  constructor
  · intro hle
    simp [calculate_with_shadow, not_lt.mpr hle]
  · intro hgt
    simp [calculate_with_shadow, hgt]

/-- C7 witness: with threshold `1e-5` the `1e-3` diff exceeds `10×` and
falls back to legacy; with threshold `1` it does not and the new breakdown
is the truth. -/
theorem shadow_new_with_fallback_witness :
    (calculate_with_shadow "new_with_fallback" c7_legacy c7_snap (1 / 100000)).truth_breakdown =
        c7_legacy ∧
      (calculate_with_shadow "new_with_fallback" c7_legacy c7_snap
        (1 / 100000)).truth_engine = "legacy" ∧
      (calculate_with_shadow "new_with_fallback" c7_legacy c7_snap (1 / 100000)).was_fallback =
        true ∧
      (calculate_with_shadow "new_with_fallback" c7_legacy c7_snap 1).truth_breakdown =
        new_breakdown_of_snapshot c7_snap ∧
      (calculate_with_shadow "new_with_fallback" c7_legacy c7_snap 1).was_fallback = false := by
  have hdiff : (new_breakdown_of_snapshot c7_snap).total_cost - c7_legacy.total_cost =
      -(1 / 1000) := by
    norm_num [new_breakdown_of_snapshot, breakdown_get, c7_snap, c7_legacy]
  have habs : |(new_breakdown_of_snapshot c7_snap).total_cost - c7_legacy.total_cost| =
      1 / 1000 := by
    rw [hdiff, abs_neg, abs_of_pos]
    norm_num
  have h1 := (shadow_new_with_fallback c7_legacy c7_snap (1 / 100000)).2 (by
    rw [habs]; norm_num)
  have h2 := (shadow_new_with_fallback c7_legacy c7_snap 1).1 (by
    rw [habs]; norm_num)
  exact ⟨h1.1, h1.2.1, h1.2.2, h2.1, h2.2.2⟩

/-! ## C5 — permanent-error classification -/

/-- C5 counterexample: a `PollHTTPError` with HTTP status 500 whose message
contains the keyword `"not found"` is NOT classified permanent (the keyword
list is never consulted when a status code is present), although the
claimed disjunction (`4xx∧≠429` OR keyword match) holds for it. -/
theorem permanent_error_counterexample :
    _is_permanent_error (.http 500 "video not found")
        (PollExc.http 500 "video not found").status_code = false ∧
      pyInStr "not found" (pyLower (PollExc.http 500 "video not found").pyStr) = true ∧
      "not found" ∈ _PERMANENT_ERROR_INDICATORS ∧
      ¬ (400 ≤ (500 : ℤ) ∧ (500 : ℤ) < 500 ∧ (500 : ℤ) ≠ 429) := by
  decide

/-- C5 (amended): an error is classified permanent iff either it is a
`PollHTTPError` and its status satisfies `400 ≤ s < 500 ∧ s ≠ 429` (the
keyword list is not consulted), or it carries no HTTP status and its
lowercased text contains one of the permanent-error keywords.  A permanent
classification marks the task failed with error code
`poll_permanent_error` and sets `completed_at`; a non-permanent one leaves
status and error code unchanged (scheduling a backoff retry instead). -/
theorem permanent_error_amended :
    ∀ (exc : PollExc) (task : VideoTask) (ctx : VideoPollContext)
      (san : String → String) (now : ℕ),
      (_is_permanent_error exc exc.status_code = true ↔
        ((∃ c m, exc = PollExc.http c m ∧ 400 ≤ c ∧ c < 500 ∧ c ≠ 429) ∨
          (exc.status_code = none ∧
            ∃ ind ∈ _PERMANENT_ERROR_INDICATORS, pyInStr ind (pyLower exc.pyStr) = true))) ∧
      (_is_permanent_error exc exc.status_code = true →
        (_handle_poll_error task exc ctx san now).status = "failed" ∧
          (_handle_poll_error task exc ctx san now).error_code = some "poll_permanent_error" ∧
          (_handle_poll_error task exc ctx san now).completed_at = some now) ∧
      (_is_permanent_error exc exc.status_code = false →
        (_handle_poll_error task exc ctx san now).status = task.status ∧
          (_handle_poll_error task exc ctx san now).error_code = task.error_code) := by
  intro exc task ctx san now
  refine ⟨?_, ?_, ?_⟩
  · cases exc with
    | http c m =>
      simp only [_is_permanent_error, PollExc.status_code]
      constructor
      · intro h
        exact Or.inl ⟨c, m, rfl, of_decide_eq_true h⟩
      · rintro (⟨c', m', he, hc⟩ | ⟨hn, _⟩)
        · injection he with h1 h2
          subst h1
          exact decide_eq_true hc
        · exact Option.noConfusion hn
    | other m =>
      simp only [_is_permanent_error, PollExc.status_code]
      rw [List.any_eq_true]
      constructor
      · intro h
        exact Or.inr ⟨by trivial, h⟩
      · rintro (⟨c', m', he, _⟩ | ⟨_, hind⟩)
        · exact PollExc.noConfusion he
        · exact hind
  · intro h
    simp [_handle_poll_error, h]
  · intro h
    simp [_handle_poll_error, h]

/-- C5 witness: a non-HTTP error whose text contains `"404"` is permanent
and marks the concrete task failed with `poll_permanent_error`. -/
theorem permanent_error_amended_witness :
    _is_permanent_error (.other "upstream 404") (PollExc.other "upstream 404").status_code =
        true ∧
      (_handle_poll_error c5_task (.other "upstream 404") c5_ctx id 777).status = "failed" ∧
      (_handle_poll_error c5_task (.other "upstream 404") c5_ctx id 777).error_code =
        some "poll_permanent_error" ∧
      (_handle_poll_error c5_task (.other "upstream 404") c5_ctx id 777).completed_at =
        some 777 := by
  have hperm := (permanent_error_amended (.other "upstream 404") c5_task c5_ctx id 777).1.mpr
    (Or.inr ⟨rfl, "404", by decide, by decide⟩)
  have hfields := (permanent_error_amended (.other "upstream 404") c5_task c5_ctx id 777).2.1
    hperm
  exact ⟨hperm, hfields.1, hfields.2.1, hfields.2.2⟩

/-! ## C6 — embedded error detected during prefetch -/

/-- C6: when the stripped prefetched payload begins with `{` (byte 123) or
`[` (byte 91) and `json.loads` yields a dict for which the selected
parser's `is_error_response` is true, the prefetch phase fails with an
`embedded_error` carrying the provider name, numeric error code, message
and status — and hands no prefetched chunk on to be forwarded to the
client. -/
theorem prefetch_embedded_error_detected :
    ∀ (chunks : List (List ℕ)) (parser : ResponseParser) (provider : String)
      (jsonLoads : List ℕ → Option Json) (fields : List (String × Json)),
      ((prefetch_stripped chunks).head? = some 123 ∨
        (prefetch_stripped chunks).head? = some 91) →
      jsonLoads (prefetch_stripped chunks) = some (Json.obj fields) →
      parser.is_error_response (Json.obj fields) = true →
      prefetch_phase chunks parser provider jsonLoads =
        .error (.embeddedError provider
          (error_code_of_type (parser.parse_response (Json.obj fields) 200).error_type)
          (parser.parse_response (Json.obj fields) 200).error_message
          (parser.parse_response (Json.obj fields) 200).error_type) := by
  intro chunks parser provider jsonLoads fields hhead hload herr
  obtain ⟨b, tl, hst⟩ : ∃ b tl, prefetch_stripped chunks = b :: tl := by
    cases hpc : prefetch_stripped chunks with
    | nil => rw [hpc] at hhead; rcases hhead with h | h <;> exact Option.noConfusion h
    | cons b tl => exact ⟨b, tl, rfl⟩
  rw [hst] at hhead hload
  have hb : b = 123 ∨ b = 91 := by
    rcases hhead with h | h
    · exact Or.inl (by injection h)
    · exact Or.inr (by injection h)
  have hchunks : chunks.isEmpty = false := by
    cases chunks with
    | nil =>
      rw [(by rfl : prefetch_stripped [] = ([] : List ℕ))] at hst
      exact List.noConfusion hst
    | cons c cs => rfl
  have htake : ((b :: tl).take 32).map byteLower =
      byteLower b :: (tl.take 31).map byteLower := by
    rw [(by rfl : (32 : ℕ) = 31 + 1), List.take_succ_cons, List.map_cons]
  have hdoc : (strBytes "<!doctype").isPrefixOf (((b :: tl).take 32).map byteLower) = false := by
    rw [htake, (by decide : strBytes "<!doctype" = [60, 33, 100, 111, 99, 116, 121, 112, 101])]
    rcases hb with rfl | rfl <;> simp [List.isPrefixOf] <;> intro hcontra <;>
      exact absurd hcontra (by decide)
  have hhtml : (strBytes "<html").isPrefixOf (((b :: tl).take 32).map byteLower) = false := by
    rw [htake, (by decide : strBytes "<html" = [60, 104, 116, 109, 108])]
    rcases hb with rfl | rfl <;> simp [List.isPrefixOf] <;> intro hcontra <;>
      exact absurd hcontra (by decide)
  simp only [prefetch_phase, check_prefetched_response_error, hchunks, hst, hdoc, hhtml,
    Bool.or_self, Bool.false_eq_true, if_false, hload]
  rw [if_pos hhead]
  simp [herr]

/-- C6 witness: a prefetched `{`-payload that the parser flags as an error
aborts the prefetch phase with the embedded error (code parsed from the
numeric status string), forwarding nothing. -/
theorem prefetch_embedded_error_detected_witness :
    prefetch_phase [[123]]
      { is_error_response := fun _ => true,
        parse_response := fun _ _ => { error_type := some "429", error_message := some "quota" } }
      "gemini" (fun _ => some (Json.obj [("error", Json.num 429)])) =
      .error (.embeddedError "gemini" (some 429) (some "quota") (some "429")) := by
  have h := prefetch_embedded_error_detected [[123]]
    { is_error_response := fun _ => true,
      parse_response := fun _ _ => { error_type := some "429", error_message := some "quota" } }
    "gemini" (fun _ => some (Json.obj [("error", Json.num 429)])) [("error", Json.num 429)]
    (Or.inl rfl) rfl rfl
  exact h

/-! ## C4 — poll update ends terminal-with-timestamp or strictly future -/

/-- C4: after `update_task_after_poll`, either the task status is terminal
(`completed`/`failed`/`cancelled`) with `completed_at` set, or the task's
`next_poll_at` is strictly in the future.  The poll interval of the task
row and of the captured poll context are positive (they are seeded from
`video_poll_interval_seconds`, a per-tick scheduler interval). -/
theorem video_poll_update_terminal_or_future :
    ∀ (task : VideoTask) (result : InternalVideoPollResult) (ctx : Option VideoPollContext)
      (err : Option PollExc) (san : String → String) (now : ℕ),
      1 ≤ task.poll_interval_seconds →
      (∀ c, ctx = some c → 1 ≤ c.poll_interval_seconds) →
      ((update_task_after_poll task result ctx err san now).status ∈
          (["completed", "failed", "cancelled"] : List String) ∧
        (update_task_after_poll task result ctx err san now).completed_at.isSome) ∨
      now < (update_task_after_poll task result ctx err san now).next_poll_at := by
  intro task result ctx err san now htask hctx
  have hstep : 0 < task.poll_interval_seconds := htask
  have hwrap : ∀ t : VideoTask,
      ((t.status ∈ (["completed", "failed", "cancelled"] : List String) ∧
          t.completed_at.isSome) ∨ now < t.next_poll_at) →
      ((apply_poll_timeout t now).status ∈ (["completed", "failed", "cancelled"] : List String) ∧
          (apply_poll_timeout t now).completed_at.isSome) ∨
        now < (apply_poll_timeout t now).next_poll_at := by
    intro t h
    unfold apply_poll_timeout
    dsimp only
    split_ifs
    · left
      exact ⟨by simp, by simp⟩
    · simpa using h
  unfold update_task_after_poll
  rcases err with _ | exc <;> rcases ctx with _ | c
  · refine hwrap _ ?_
    dsimp only
    split_ifs <;>
      solve
        | (left; constructor <;> simp)
        | (right; exact Nat.lt_add_of_pos_right hstep)
  · refine hwrap _ ?_
    dsimp only
    split_ifs <;>
      solve
        | (left; constructor <;> simp)
        | (right; exact Nat.lt_add_of_pos_right hstep)
  · refine hwrap _ ?_
    dsimp only
    split_ifs <;>
      solve
        | (left; constructor <;> simp)
        | (right; exact Nat.lt_add_of_pos_right hstep)
  · refine hwrap _ ?_
    have hcpos : 1 ≤ c.poll_interval_seconds := hctx c rfl
    have hbpos :
        0 < min (c.poll_interval_seconds * 2 ^ (min c.retry_count 5)) max_backoff_seconds := by
      have h2 : 0 < 2 ^ (min c.retry_count 5) := Nat.pos_pow_of_pos _ (by omega)
      have h3 : 0 < c.poll_interval_seconds * 2 ^ (min c.retry_count 5) :=
        Nat.mul_pos (by omega) h2
      have h4 : 0 < max_backoff_seconds := by decide
      exact lt_min h3 h4
    unfold _handle_poll_error
    dsimp only
    split_ifs <;>
      solve
        | (left; constructor <;> simp)
        | (right; exact Nat.lt_add_of_pos_right hbpos)

/-- C4 witness: a non-terminal poll of the concrete task reschedules it
strictly into the future. -/
theorem video_poll_update_terminal_or_future_witness :
    ((update_task_after_poll c4_task c4_result none none id 1000).status ∈
        (["completed", "failed", "cancelled"] : List String) ∧
      (update_task_after_poll c4_task c4_result none none id 1000).completed_at.isSome) ∨
    1000 < (update_task_after_poll c4_task c4_result none none id 1000).next_poll_at :=
  video_poll_update_terminal_or_future c4_task c4_result none none id 1000 (by decide)
    (fun _ h => Option.noConfusion h)

/-! ## C10 — `calculate` does not mutate the caller's dimensions dict -/

/-- Reading an index below the original length is unaffected by the
appended fresh cell. -/
theorem heapRead_append (h : List Dict) (d : Dict) (r : ℕ) (hr : r < h.length) :
    heapRead (h ++ [d]) r = heapRead h r := by
  unfold heapRead
  rw [List.getD_eq_getElem?_getD, List.getD_eq_getElem?_getD, List.getElem?_append_left hr]

/-- Writing one cell leaves every other cell unchanged. -/
theorem heapRead_write_ne (h : List Dict) (i r : ℕ) (d : Dict) (hir : r ≠ i) :
    heapRead (heapWrite h i d) r = heapRead h r := by
  unfold heapRead heapWrite
  rw [List.getD_eq_getElem?_getD, List.getD_eq_getElem?_getD, List.getElem?_set_ne (by omega)]

/-- A conditional write to a fixed cell leaves every other cell unchanged. -/
theorem heapRead_condWrite (h : List Dict) (c : Prop) [Decidable c] (i r : ℕ) (d : Dict)
    (hir : r ≠ i) :
    heapRead (if c then heapWrite h i d else h) r = heapRead h r := by
  split_ifs
  · exact heapRead_write_ne h i r d hir
  · rfl

/-- C10: the dimensions-normalization phase of `BillingService.calculate`
never mutates the caller-supplied dict: the compatibility aliases, the
`request_count` default and the derived `total_input_context` are written
only to the freshly allocated copy, so the caller's cell reads back
identically and the local `dims` reference is distinct from the caller's. -/
theorem calculate_dims_phase_no_mutation :
    ∀ (h : List Dict) (r : ℕ), r < h.length →
      heapRead (calculate_dims_phase h (some r)).1 r = heapRead h r ∧
      (calculate_dims_phase h (some r)).2 ≠ r := by
  intro h r hr
  have hne : r ≠ h.length := by omega
  constructor
  · unfold calculate_dims_phase
    dsimp only
    rw [heapRead_condWrite _ _ _ _ _ hne, heapRead_condWrite _ _ _ _ _ hne,
      heapRead_condWrite _ _ _ _ _ hne, heapRead_condWrite _ _ _ _ _ hne,
      heapRead_append _ _ _ hr]
  · unfold calculate_dims_phase
    dsimp only
    omega

/-- C10 witness: a concrete heap with the caller's dict at cell 0. -/
theorem calculate_dims_phase_no_mutation_witness :
    heapRead (calculate_dims_phase [[("input_tokens", .vInt 10)], []] (some 0)).1 0 =
        heapRead [[("input_tokens", .vInt 10)], []] 0 ∧
      (calculate_dims_phase [[("input_tokens", .vInt 10)], []] (some 0)).2 ≠ 0 :=
  calculate_dims_phase_no_mutation [[("input_tokens", .vInt 10)], []] 0 (by decide)

/-! ## C1 — complete snapshots: total = Σ quantized breakdown -/

/-- Model of `roundHalfUp` is the identity on integers. -/
theorem roundHalfUp_intCast (n : ℤ) : roundHalfUp (n : ℚ) = n := by
  unfold roundHalfUp
  split_ifs with h
  · rw [show ((n : ℚ) + 1 / 2) = 1 / 2 + (n : ℚ) by ring, Int.floor_add_int]
    norm_num
  · rw [show (-(n : ℚ) + 1 / 2) = 1 / 2 + ((-n : ℤ) : ℚ) by push_cast; ring,
      Int.floor_add_int]
    norm_num

/-- Model of `quantize_cost` is the identity on multiples of `1e-8`. -/
theorem quantize_cost_int_div (n : ℤ) :
    quantize_cost ((n : ℚ) / 10 ^ 8) = (n : ℚ) / 10 ^ 8 := by
  unfold quantize_cost quantize_decimal BILLING_STORAGE_PRECISION
  rw [show ((n : ℚ) / 10 ^ 8) * 10 ^ 8 = (n : ℚ) by field_simp, roundHalfUp_intCast]

/-- Every quantized cost is a multiple of `1e-8`. -/
theorem quantize_cost_form (x : ℚ) : ∃ n : ℤ, quantize_cost x = (n : ℚ) / 10 ^ 8 :=
  ⟨roundHalfUp (x * 10 ^ 8), rfl⟩

/-- A sum of multiples of `1e-8` is a multiple of `1e-8`. -/
theorem sum_int_div (l : List ℚ) (h : ∀ x ∈ l, ∃ n : ℤ, x = (n : ℚ) / 10 ^ 8) :
    ∃ n : ℤ, l.sum = (n : ℚ) / 10 ^ 8 := by
  induction l with
  | nil => exact ⟨0, by simp⟩
  | cons a t ih =>
    obtain ⟨na, ha⟩ := h a (by simp)
    obtain ⟨nt, ht⟩ := ih (fun x hx => h x (by simp [hx]))
    refine ⟨na + nt, ?_⟩
    rw [List.sum_cons, ha, ht]
    push_cast
    ring

/-- Quantizing a sum of multiples of `1e-8` is the identity. -/
theorem quantize_cost_sum_multiples (l : List ℚ)
    (h : ∀ x ∈ l, ∃ n : ℤ, x = (n : ℚ) / 10 ^ 8) :
    quantize_cost l.sum = l.sum := by
  obtain ⟨n, hn⟩ := sum_int_div l h
  rw [hn, quantize_cost_int_div]

/-- Model of `quantize_cost` is idempotent. -/
theorem quantize_cost_idem (x : ℚ) : quantize_cost (quantize_cost x) = quantize_cost x := by
  obtain ⟨n, hn⟩ := quantize_cost_form x
  rw [hn, quantize_cost_int_div]

/-- The quantize-and-snapshot step keeps `total = Σ quantized breakdown`
for complete results, provided an empty breakdown only occurs with cost 0
(which holds for the formula engine: its breakdown has one entry per
expression term and its cost is the term sum). -/
theorem build_result_invariant (rule : VirtualBillingRule) (dims : Dict) (result : EvalResult)
    (hzero : result.cost_breakdown = [] → result.cost = 0)
    (hc : result.status = "complete") :
    (calculate_build_result rule dims result).snapshot.total_cost =
      (((calculate_build_result rule dims result).snapshot.cost_breakdown.map
        (fun p => quantize_cost p.2)).sum) := by
  unfold calculate_build_result
  dsimp only
  rw [if_pos hc]
  cases hbr : result.cost_breakdown with
  | nil =>
    simp only [hbr, List.map_nil, List.isEmpty_nil, Bool.not_true, Bool.false_eq_true,
      if_false, List.sum_nil, hzero hbr]
    simpa using quantize_cost_int_div 0
  | cons a l =>
    rw [if_pos (by simp)]
    simp only [List.map_map, Function.comp_def, quantize_cost_idem]
    exact quantize_cost_sum_multiples _ (by
      intro x hx
      obtain ⟨p, _, rfl⟩ := List.mem_map.mp hx
      exact quantize_cost_form p.2)

/-- C1: every `BillingService.calculate` result whose snapshot status is
`complete` has `total_cost` equal to the sum of its `cost_breakdown`
values after quantizing each component to 8 decimal places (exact
equality, which implies the `≤ 1e-8` phrasing). -/
theorem billing_complete_total_eq_breakdown_sum :
    ∀ (lookup : Option VirtualBillingRule) (env : String → ℚ) (missing : List String)
      (dimensions : Option Dict) (strict : Bool) (res : CostResult),
      BillingService.calculate lookup env missing dimensions strict = .ok res →
      res.snapshot.status = "complete" →
      res.snapshot.total_cost =
        ((res.snapshot.cost_breakdown.map (fun p => quantize_cost p.2)).sum) := by
  intro lookup env missing dims strict res hok hst
  cases lookup with
  | none =>
    unfold BillingService.calculate at hok
    dsimp only at hok
    injection hok with h
    subst h
    simp [calculate_no_rule_result] at hst
  | some rule =>
    unfold BillingService.calculate at hok
    dsimp only at hok
    by_cases hexp : rule.expression = ""
    · rw [if_neg (show ¬ (rule.expression ≠ "") by simp [hexp])] at hok
      injection hok with h
      subst h
      simp [calculate_no_rule_result] at hst
    · rw [if_pos (show rule.expression ≠ "" from hexp)] at hok
      by_cases hm : missing = []
      · have heval : FormulaEngine.evaluate rule.terms env missing =
            { status := "complete", cost := (rule.terms.map env).sum,
              cost_breakdown := rule.terms.map (fun t => (t, env t)),
              missing_required := [] } := by
          unfold FormulaEngine.evaluate
          rw [if_neg (show ¬ (missing ≠ []) by simp [hm])]
        rw [heval] at hok
        rw [if_neg (by simp)] at hok
        injection hok with h
        subst h
        refine build_result_invariant rule _ _ ?_ rfl
        intro hbr
        dsimp only at hbr ⊢
        rw [List.map_eq_nil_iff.mp hbr]
        simp
      · have heval : FormulaEngine.evaluate rule.terms env missing =
            { status := "incomplete", cost := 0, cost_breakdown := [],
              missing_required := missing } := by
          unfold FormulaEngine.evaluate
          rw [if_pos (show missing ≠ [] from hm)]
        rw [heval] at hok
        by_cases hstrict : strict = true
        · rw [if_pos (by simp [hstrict])] at hok
          exact Except.noConfusion hok
        · rw [if_neg (by simp [hstrict])] at hok
          injection hok with h
          subst h
          simp [calculate_build_result] at hst

/-- C1 witness: a concrete two-component run of `calculate` whose complete
snapshot satisfies the total/breakdown equation. -/
theorem billing_complete_total_witness :
    c1_res.snapshot.total_cost =
      ((c1_res.snapshot.cost_breakdown.map (fun p => quantize_cost p.2)).sum) :=
  billing_complete_total_eq_breakdown_sum (some c1_rule) (fun _ => 3 / 1000) [] (some [])
    false c1_res rfl rfl

end Aether
